import Mathlib

/-!
Formal model of the email-assistant repository: the multi-provider AI gateway
(src/providers.js: callAI, streamAI, truncate, safeText) and the request
lifecycle of the side-panel script (send, cancelStream, addToHistory,
navigateHistory, validateProvider, getValidationError, buildPrompt).

JavaScript values that the code manipulates as parsed JSON are modelled by the
inductive type Json below.  JSON.parse and TextDecoder are platform builtins,
not repository code: JSON.parse is therefore passed to the model as an oracle
of type String -> Option Json (none models a parse exception), and the byte
stream is modelled as the list of decoded string chunks the reader yields.
String primitives of JavaScript (trim, startsWith, slice, length) are
re-implemented structurally over character lists so that every definition
evaluates inside the kernel.
-/

namespace EmailAssistant

/-- Model of a JavaScript JSON value.  Numbers are modelled as integers: no
claim inspects fractional values.  An absent property is modelled by
Option.none at the access sites. -/
inductive Json where
| null : Json
| bool (b : Bool) : Json
| num (n : Int) : Json
| str (s : String) : Json
| arr (xs : List Json) : Json
| obj (fields : List (String × Json)) : Json

/-- Whitespace recognised by JavaScript trim (ASCII part; space, tab,
newline, carriage return, vertical tab, form feed). -/
def isJsSpace (c : Char) : Bool :=
  c = ' ' || c = '\t' || c = '\n' || c = '\r' || c = Char.ofNat 11 || c = Char.ofNat 12

/-- Model of JavaScript String.prototype.trim. -/
def jsTrim (s : String) : String :=
  String.mk (((s.data.dropWhile isJsSpace).reverse.dropWhile isJsSpace).reverse)

/-- Character-list core of String.prototype.startsWith. -/
def listStarts : List Char → List Char → Bool
| _, [] => true
| [], _ :: _ => false
| c :: cs, p :: ps => c = p && listStarts cs ps

/-- Model of JavaScript String.prototype.startsWith. -/
def jsStarts (s pre : String) : Bool :=
  listStarts s.data pre.data

/-- Model of JavaScript String.prototype.endsWith. -/
def jsEnds (s suf : String) : Bool :=
  listStarts s.data.reverse suf.data.reverse

/-- Model of JavaScript String.prototype.slice(n) (drop the first n units). -/
def jsDrop (s : String) (n : Nat) : String :=
  String.mk (s.data.drop n)

/-- Model of JavaScript String.prototype.slice(0, n) (keep the first n units). -/
def jsTake (s : String) (n : Nat) : String :=
  String.mk (s.data.take n)

/-- Model of JavaScript String.prototype.length.  (JS counts UTF-16 units; we
count characters — the two agree on all strings appearing in the claims.) -/
def jsLen (s : String) : Nat :=
  s.data.length

/-- Model of JavaScript Array.prototype.join(sep). -/
def joinWith (sep : String) : List String → String
| [] => ""
| [s] => s
| s :: rest => s ++ sep ++ joinWith sep rest

/-- Property lookup on an object field list (first match wins, as in JS). -/
def lookupField : List (String × Json) → String → Option Json
| [], _ => none
| (k, v) :: fs, key => if k = key then some v else lookupField fs key

/-- Model of obj.k property access: none models undefined. -/
def jsGet : Json → String → Option Json
| Json.obj fs, k => lookupField fs k
| _, _ => none

/-- Model of arr[i] element access on arrays; none models undefined.
(JS indexing on non-arrays is never exercised by the claims.) -/
def jsIdx : Json → Nat → Option Json
| Json.arr xs, i => xs.get? i
| _, _ => none

/-- Optional-chaining property access: o?.k . -/
def jsField (o : Option Json) (k : String) : Option Json :=
  o.bind (fun j => jsGet j k)

/-- Optional-chaining index access: o?.[i] . -/
def jsAt (o : Option Json) (i : Nat) : Option Json :=
  o.bind (fun j => jsIdx j i)

/-- JavaScript truthiness of a JSON value. -/
def jsTruthy : Json → Bool
| Json.null => false
| Json.bool b => b
| Json.num n => n ≠ 0
| Json.str s => s ≠ ""
| Json.arr _ => true
| Json.obj _ => true

/-- Truthiness of a possibly-undefined value (undefined is falsy). -/
def jsTruthyOpt : Option Json → Bool
| some v => jsTruthy v
| none => false

mutual

/-- Model of JavaScript string coercion String(v) as used by template
literals and += on the extracted delta values.  Nested array stringification
is approximated by the comma join JS performs. -/
def jsToStr : Json → String
| Json.null => "null"
| Json.bool true => "true"
| Json.bool false => "false"
| Json.num n => toString n
| Json.str s => s
| Json.arr xs => joinWith "," (jsToStrList xs)
| Json.obj _ => "[object Object]"

/-- Stringification of array elements for Array.prototype.join (null maps
to the empty string there). -/
def jsToStrList : List Json → List String
| [] => []
| Json.null :: xs => "" :: jsToStrList xs
| x :: xs => jsToStr x :: jsToStrList xs

end

/-- First truthy value of a JavaScript || chain over possibly-undefined
operands; none when every operand is falsy. -/
def firstTruthy : List (Option Json) → Option Json
| [] => none
| some v :: os => if jsTruthy v then some v else firstTruthy os
| none :: os => firstTruthy os

/-- Value of a JS expression a1 || a2 || ... || '' coerced to a string, with
the guard semantics of the source (the || chain yields the first truthy
operand, else the empty string). -/
def orChainStr (os : List (Option Json)) : String :=
  match firstTruthy os with
  | some v => jsToStr v
  | none => ""

/-- Core of buffer.split(/\r?\n/): split at every newline, a single carriage
return immediately before the newline belonging to the separator.  A lone
carriage return does not split (the regex requires the newline). -/
def splitNlAux : List Char → List Char → List String
| [], acc => [String.mk acc.reverse]
| '\n' :: rest, acc =>
  let seg := match acc with
    | '\r' :: acc2 => acc2
    | _ => acc
  String.mk seg.reverse :: splitNlAux rest []
| c :: rest, acc => splitNlAux rest (c :: acc)

/-- Model of buffer.split(/\r?\n/) from the streamAI read loop. -/
def splitNl (s : String) : List String :=
  splitNlAux s.data []

/-- Extraction of the per-event google delta in streamAI:
candidates[0].content.parts, defaulting to the empty array.
(A truthy non-array parts value would make .map throw in JS; no claim
exercises that shape.) -/
def googleParts (evt : Json) : List Json :=
  match jsField (jsField (jsAt (jsField (some evt) "candidates") 0) "content") "parts" with
  | some (Json.arr xs) => xs
  | _ => []

/-- Model of parts.map(p => p?.text).filter(Boolean), stringified at the
subsequent join. -/
def truthyTexts : List Json → List String
| [] => []
| p :: ps =>
  match jsGet p "text" with
  | some t => if jsTruthy t then jsToStr t :: truthyTexts ps else truthyTexts ps
  | none => truthyTexts ps

/-- streamAI google branch: parts.map(p => p?.text).filter(Boolean).join(''). -/
def googleExtractStream (evt : Json) : String :=
  joinWith "" (truthyTexts (googleParts evt))

/-- callAI google normalization: parts.map(p => p?.text).filter(Boolean).join(newline)
over data.candidates[0].content.parts. -/
def googleExtractCall (data : Json) : String :=
  joinWith "\n" (truthyTexts (googleParts data))

/-- callAI anthropic normalization: (data?.content || []).map(p => p?.text)
.filter(Boolean).join(newline). -/
def anthropicExtractCall (data : Json) : String :=
  joinWith "\n" (truthyTexts (match jsField (some data) "content" with
    | some (Json.arr xs) => xs
    | _ => []))

/-- callAI openai/deepseek/azure normalization:
data?.choices?.[0]?.message?.content || ''. -/
def chatExtractCall (data : Json) : String :=
  orChainStr [jsField (jsField (jsAt (jsField (some data) "choices") 0) "message") "content"]

/-- callAI response normalization after a 2xx response (the if-chain at the
end of callAI; an unrecognized provider falls through to the empty string). -/
def normalizeResponse (provider : String) (data : Json) : String :=
  if provider = "openai" ∨ provider = "deepseek" ∨ provider = "azure" then chatExtractCall data
  else if provider = "anthropic" then anthropicExtractCall data
  else if provider = "google" then googleExtractCall data
  else ""

/-- Per-record delta extraction of streamAI, switching on the provider tag
exactly as the source does (anthropic: delta.text || content_block.text;
google: the parts join; every other provider: choices[0].delta.content). -/
def extractDelta (provider : String) (evt : Json) : String :=
  if provider = "anthropic" then
    orChainStr [jsField (jsField (some evt) "delta") "text",
                jsField (jsField (some evt) "content_block") "text"]
  else if provider = "google" then
    googleExtractStream evt
  else
    orChainStr [jsField (jsField (jsAt (jsField (some evt) "choices") 0) "delta") "content"]

/-- State of the streamAI read loop: the carry-over buffer, the accumulated
full text, and the fragments passed to onDelta so far (in invocation order). -/
structure SseState where
  buffer : String
  full : String
  deltas : List String
deriving DecidableEq

/-- Processing of one complete SSE line inside the read loop of streamAI:
skip blank lines, lines without the data: tag, the [DONE] sentinel, and
records whose payload fails to parse; otherwise extract the delta and, when
it is non-empty, accumulate it and invoke onDelta. -/
def processLine (provider : String) (parse : String → Option Json) (st : SseState) (line : String) : SseState :=
  let trimmed := jsTrim line
  if trimmed = "" then st
  else if jsStarts trimmed "data:" then
    let dataStr := jsTrim (jsDrop trimmed 5)
    if dataStr = "[DONE]" then st
    else
      match parse dataStr with
      | none => st
      | some evt =>
        let t := extractDelta provider evt
        if t = "" then st
        else { st with full := st.full ++ t, deltas := st.deltas ++ [t] }
  else st

/-- One iteration of the streamAI read loop on a decoded chunk: append to the
buffer, split on newlines, keep the final partial line as the new buffer, and
process every complete line in order. -/
def feedChunk (provider : String) (parse : String → Option Json) (st : SseState) (chunk : String) : SseState :=
  let parts := splitNl (st.buffer ++ chunk)
  let newBuffer := parts.getLast?.getD ""
  List.foldl (processLine provider parse) { st with buffer := newBuffer } parts.dropLast

/-- The whole streamAI read loop over the decoded chunks the reader yields
(the trailing buffer left over when the transport closes is discarded, as in
the source). -/
def runStream (provider : String) (parse : String → Option Json) (chunks : List String) : SseState :=
  List.foldl (feedChunk provider parse) { buffer := "", full := "", deltas := [] } chunks

/-- Flat credential mapping consumed from settings storage; an absent key and
the empty string are the same thing (cfg.x || ''). -/
structure Cfg where
  openai_key : String
  anthropic_key : String
  google_key : String
  deepseek_key : String
  azure_api_key : String
  azure_endpoint : String
  azure_deployment : String
  azure_api_version : String
deriving DecidableEq

/-- Hexadecimal digit (uppercase) of a value below 16. -/
def hexDigit (n : Nat) : Char :=
  if n < 10 then Char.ofNat (48 + n) else Char.ofNat (55 + n)

/-- UTF-8 bytes of a code point. -/
def utf8Bytes (n : Nat) : List Nat :=
  if n < 128 then [n]
  else if n < 2048 then [192 + n / 64, 128 + n % 64]
  else if n < 65536 then [224 + n / 4096, 128 + (n / 64) % 64, 128 + n % 64]
  else [240 + n / 262144, 128 + (n / 4096) % 64, 128 + (n / 64) % 64, 128 + n % 64]

/-- Characters encodeURIComponent leaves unescaped. -/
def uriUnreserved (c : Char) : Bool :=
  c.isAlphanum || c = '-' || c = '_' || c = '.' || c = '!' || c = '~' || c = '*' ||
  c = Char.ofNat 39 || c = '(' || c = ')'

/-- Model of the platform encodeURIComponent builtin. -/
def encodeURIComponent (s : String) : String :=
  String.join (s.data.map (fun c =>
    if uriUnreserved c then String.mk [c]
    else String.join ((utf8Bytes c.toNat).map (fun b => String.mk ['%', hexDigit (b / 16), hexDigit (b % 16)]))))

/-- Request body as constructed by callAI / streamAI.  chat covers the
openai/deepseek/azure shape ({model?, messages:[system,user], temperature 0.7,
stream?}); anthropicBody the Anthropic Messages shape; geminiBody the Google
shape (two user parts: system prompt then prompt, temperature 0.7 in
generationConfig).  The constant temperature 0.7 is not recorded. -/
inductive ReqBody where
| chat (model : Option String) (system : String) (user : String) (stream : Option Bool)
| anthropicBody (model : String) (maxTokens : Nat) (system : String) (user : String) (stream : Option Bool)
| geminiBody (system : String) (user : String)
deriving DecidableEq

/-- The HTTP request a provider branch hands to fetch. -/
structure Request where
  url : String
  headers : List (String × String)
  body : ReqBody
deriving DecidableEq

/-- Everything callAI does before fetch: credential resolution, the provider
switch with its validation, URL, headers and body construction.  An error
value models a throw before any network call. -/
def callAI_prepare (provider model prompt systemPrompt : String) (cfg : Cfg) : Except String Request :=
  let sysDefault := if systemPrompt = "" then "You are a helpful assistant. Return concise results." else systemPrompt
  let openaiKey := cfg.openai_key
  let anthropicKey := cfg.anthropic_key
  let googleKey := cfg.google_key
  let deepseekKey := cfg.deepseek_key
  let azureKey := cfg.azure_api_key
  let azureEndpoint := jsTrim cfg.azure_endpoint
  let azureDeployment := jsTrim cfg.azure_deployment
  let azureApiVersion := jsTrim (if cfg.azure_api_version = "" then "2024-02-01" else cfg.azure_api_version)
  if provider = "azure" then
    if azureEndpoint = "" ∨ azureKey = "" ∨ azureDeployment = "" then
      Except.error "Azure configuration is incomplete. Set endpoint, deployment, and API key in Settings."
    else if jsStarts azureEndpoint "https://" = false then
      Except.error "Azure endpoint must use HTTPS. Please update your endpoint URL."
    else
      let normalizedEndpoint := if jsEnds azureEndpoint "/" then azureEndpoint else azureEndpoint ++ "/"
      Except.ok
        { url := normalizedEndpoint ++ "openai/deployments/" ++ azureDeployment ++
            "/chat/completions?api-version=" ++ encodeURIComponent azureApiVersion
          headers := [("Content-Type", "application/json"), ("api-key", azureKey)]
          body := ReqBody.chat (if model = "" then none else some model) sysDefault prompt none }
  else if provider = "openai" then
    if openaiKey = "" then Except.error "OpenAI API key not set. Add it in Settings."
    else
      Except.ok
        { url := "https://api.openai.com/v1/chat/completions"
          headers := [("Content-Type", "application/json"), ("Authorization", "Bearer " ++ openaiKey)]
          body := ReqBody.chat (some (if model = "" then "gpt-4o-mini" else model)) sysDefault prompt none }
  else if provider = "anthropic" then
    if anthropicKey = "" then Except.error "Anthropic API key not set. Add it in Settings."
    else
      Except.ok
        { url := "https://api.anthropic.com/v1/messages"
          headers := [("Content-Type", "application/json"), ("x-api-key", anthropicKey),
                      ("anthropic-version", "2023-06-01")]
          body := ReqBody.anthropicBody (if model = "" then "claude-3-5-sonnet-20241022" else model) 4096 sysDefault prompt none }
  else if provider = "google" then
    if googleKey = "" then Except.error "Google Gemini API key not set. Add it in Settings."
    else
      let mdl := if model = "" then "gemini-1.5-flash" else model
      Except.ok
        { url := "https://generativelanguage.googleapis.com/v1beta/models/" ++
            encodeURIComponent mdl ++ ":generateContent?key=" ++ encodeURIComponent googleKey
          headers := [("Content-Type", "application/json")]
          body := ReqBody.geminiBody sysDefault prompt }
  else
    if deepseekKey = "" then Except.error "DeepSeek API key not set. Add it in Settings."
    else
      Except.ok
        { url := "https://api.deepseek.com/chat/completions"
          headers := [("Content-Type", "application/json"), ("Authorization", "Bearer " ++ deepseekKey)]
          body := ReqBody.chat (some (if model = "" then "deepseek-chat" else model)) sysDefault prompt (some false) }

/-- Everything streamAI does before fetch.  The switch mirrors callAI with
stream-mode bodies, the google streaming URL, and shorter error strings. -/
def streamAI_prepare (provider model prompt systemPrompt : String) (cfg : Cfg) : Except String Request :=
  let sysDefault := if systemPrompt = "" then "You are a helpful assistant. Return concise results." else systemPrompt
  let openaiKey := cfg.openai_key
  let anthropicKey := cfg.anthropic_key
  let googleKey := cfg.google_key
  let deepseekKey := cfg.deepseek_key
  let azureKey := cfg.azure_api_key
  let azureEndpoint := jsTrim cfg.azure_endpoint
  let azureDeployment := jsTrim cfg.azure_deployment
  let azureApiVersion := jsTrim (if cfg.azure_api_version = "" then "2024-02-01" else cfg.azure_api_version)
  if provider = "azure" then
    if azureEndpoint = "" ∨ azureKey = "" ∨ azureDeployment = "" then
      Except.error "Azure configuration is incomplete."
    else if jsStarts azureEndpoint "https://" = false then
      Except.error "Azure endpoint must use HTTPS."
    else
      let base := if jsEnds azureEndpoint "/" then azureEndpoint else azureEndpoint ++ "/"
      Except.ok
        { url := base ++ "openai/deployments/" ++ azureDeployment ++
            "/chat/completions?api-version=" ++ encodeURIComponent azureApiVersion
          headers := [("Content-Type", "application/json"), ("api-key", azureKey)]
          body := ReqBody.chat (if model = "" then none else some model) sysDefault prompt (some true) }
  else if provider = "openai" then
    if openaiKey = "" then Except.error "OpenAI API key not set."
    else
      Except.ok
        { url := "https://api.openai.com/v1/chat/completions"
          headers := [("Content-Type", "application/json"), ("Authorization", "Bearer " ++ openaiKey)]
          body := ReqBody.chat (some (if model = "" then "gpt-4o-mini" else model)) sysDefault prompt (some true) }
  else if provider = "anthropic" then
    if anthropicKey = "" then Except.error "Anthropic API key not set."
    else
      Except.ok
        { url := "https://api.anthropic.com/v1/messages"
          headers := [("Content-Type", "application/json"), ("x-api-key", anthropicKey),
                      ("anthropic-version", "2023-06-01")]
          body := ReqBody.anthropicBody (if model = "" then "claude-3-5-sonnet-20241022" else model) 4096 sysDefault prompt (some true) }
  else if provider = "google" then
    if googleKey = "" then Except.error "Google Gemini API key not set."
    else
      let mdl := if model = "" then "gemini-1.5-flash" else model
      Except.ok
        { url := "https://generativelanguage.googleapis.com/v1beta/models/" ++
            encodeURIComponent mdl ++ ":streamGenerateContent?key=" ++ encodeURIComponent googleKey ++ "&alt=sse"
          headers := [("Content-Type", "application/json")]
          body := ReqBody.geminiBody sysDefault prompt }
  else
    if deepseekKey = "" then Except.error "DeepSeek API key not set."
    else
      Except.ok
        { url := "https://api.deepseek.com/chat/completions"
          headers := [("Content-Type", "application/json"), ("Authorization", "Bearer " ++ deepseekKey)]
          body := ReqBody.chat (some (if model = "" then "deepseek-chat" else model)) sysDefault prompt (some true) }

/-- Model of the truncate helper of providers.js: empty in, empty out;
otherwise strings longer than n are cut to n units with an ellipsis
character appended. -/
def truncate (s : String) (n : Nat) : String :=
  if s = "" then ""
  else if jsLen s > n then jsTake s n ++ "…" else s

/-- Fallback of the error-detail extraction: the top-level message field when
truthy, else the truncated raw body. -/
def httpErrorDetailTop (j : Json) (errText : String) : String :=
  match jsGet j "message" with
  | some v => if jsTruthy v then jsToStr v else truncate errText 200
  | none => truncate errText 200

/-- Detail part of the non-2xx error message, as computed by the identical
blocks in callAI and streamAI: parse the body; when errData.error?.message is
truthy use it, else when errData.message is truthy use it, else the truncated
raw body; an unparsable body also yields the truncated raw body.  The parsed
argument is the outcome of JSON.parse on the body text. -/
def httpErrorDetail (parsed : Option Json) (errText : String) : String :=
  match parsed with
  | none => truncate errText 200
  | some j =>
    match jsField (jsField (some j) "error") "message" with
    | some v => if jsTruthy v then jsToStr v else httpErrorDetailTop j errText
    | none => httpErrorDetailTop j errText

/-- Full message of the error thrown on a non-2xx response. -/
def httpErrorMessage (provider : String) (status : Nat) (parsed : Option Json) (errText : String) : String :=
  provider ++ " API error " ++ toString status ++ ": " ++ httpErrorDetail parsed errText

/-- HTTP response as the two entry points observe it: the ok flag and status
of fetch, the text the body reads as, and — for streamAI — the decoded chunks
the body reader yields (none models a response without a stream reader). -/
structure HttpResp where
  ok : Bool
  status : Nat
  bodyText : String
  stream : Option (List String)

/-- End-to-end model of callAI: the pre-fetch phase, the non-2xx error path,
and the 2xx normalization.  parse is the JSON.parse oracle applied to the
error body; data models the value await resp.json() yields on success. -/
def callAI (provider model prompt systemPrompt : String) (cfg : Cfg)
    (parse : String → Option Json) (resp : HttpResp) (data : Json) : Except String String :=
  match callAI_prepare provider model prompt systemPrompt cfg with
  | Except.error e => Except.error e
  | Except.ok _ =>
    if resp.ok = false then
      Except.error (httpErrorMessage provider resp.status (parse resp.bodyText) resp.bodyText)
    else
      Except.ok (normalizeResponse provider data)

/-- End-to-end model of streamAI.  The result pairs the returned string with
the list of fragments passed to onDelta, in invocation order.  A response
without a body reader falls back to delivering the whole body text as one
callback. -/
def streamAI (provider model prompt systemPrompt : String) (cfg : Cfg)
    (parse : String → Option Json) (resp : HttpResp) : Except String (String × List String) :=
  match streamAI_prepare provider model prompt systemPrompt cfg with
  | Except.error e => Except.error e
  | Except.ok _ =>
    if resp.ok = false then
      Except.error (httpErrorMessage provider resp.status (parse resp.bodyText) resp.bodyText)
    else
      match resp.stream with
      | none => Except.ok (resp.bodyText, [resp.bodyText])
      | some chunks =>
        let st := runStream provider parse chunks
        Except.ok (st.full, st.deltas)

/-- Response history of the side panel: the entries list and the cursor
historyIndex (initially -1). -/
structure HistState where
  items : List String
  idx : Int
deriving DecidableEq

/-- Model of addToHistory: push the text, evict the oldest entry when the
length passes 10 (Array.prototype.shift), and point the cursor at the newest
entry. -/
def addToHistory (h : HistState) (text : String) : HistState :=
  let pushed := h.items ++ [text]
  let afterShift := if pushed.length > 10 then pushed.drop 1 else pushed
  { items := afterShift, idx := (afterShift.length : Int) - 1 }

/-- Model of navigateHistory: no-op on an empty history, else move the cursor
by direction, clamped to [0, length-1].  (The source additionally repaints
outputEl from the entry under the cursor; display is outside the model.) -/
def navigateHistory (h : HistState) (direction : Int) : HistState :=
  if h.items.length = 0 then h
  else { h with idx := max 0 (min ((h.items.length : Int) - 1) (h.idx + direction)) }

/-- The pieces of side-panel state the request lifecycle touches: the raw
delta accumulator of the active request, the output pane text, the streaming
flag, the history, whether a port is open, and a digest of the status line. -/
structure UiState where
  raw : String
  output : String
  isStreaming : Bool
  hist : HistState
  portOpen : Bool
  status : String
deriving DecidableEq

/-- Messages arriving on the ai-stream port (msg.text || '' is already folded
into the carried string for delta, matching raw += msg.text || ''). -/
inductive PortMsg where
| delta (text : String)
| done (text : String)
| err (message : String)
deriving DecidableEq

/-- Model of the currentPort.onMessage listener in send: delta accumulates
and repaints, done finalizes (raw = msg.text || raw), records the response in
the history and disconnects, error tears down without touching the history. -/
def onPortMessage (s : UiState) (msg : PortMsg) : UiState :=
  match msg with
  | PortMsg.delta t =>
    let raw := s.raw ++ t
    { s with raw := raw, output := raw, status := "Streaming response..." }
  | PortMsg.done t =>
    let raw := if t = "" then s.raw else t
    { s with raw := raw, output := raw, status := "Complete", isStreaming := false,
             hist := addToHistory s.hist raw, portOpen := false }
  | PortMsg.err m =>
    { s with status := "Error: " ++ m, isStreaming := false, portOpen := false }

/-- Model of cancelStream: disconnect the port, clear the streaming flag and
show Cancelled; the history and the accumulated text are not touched. -/
def cancelStream (s : UiState) : UiState :=
  { s with portOpen := false, isStreaming := false, status := "Cancelled" }

/-- Model of validateProvider: the truthiness of the per-provider credential
expression (an unknown provider indexes to undefined, hence falsy). -/
def validateProvider (provider : String) (cfg : Cfg) : Bool :=
  if provider = "openai" then jsTrim cfg.openai_key != ""
  else if provider = "anthropic" then jsTrim cfg.anthropic_key != ""
  else if provider = "google" then jsTrim cfg.google_key != ""
  else if provider = "deepseek" then jsTrim cfg.deepseek_key != ""
  else if provider = "azure" then
    jsTrim cfg.azure_api_key != "" && jsTrim cfg.azure_endpoint != "" && jsTrim cfg.azure_deployment != ""
  else false

/-- Model of getValidationError. -/
def getValidationError (provider : String) : String :=
  if provider = "openai" then "OpenAI API key not configured. Please add it in Settings."
  else if provider = "anthropic" then "Anthropic API key not configured. Please add it in Settings."
  else if provider = "google" then "Google Gemini API key not configured. Please add it in Settings."
  else if provider = "deepseek" then "DeepSeek API key not configured. Please add it in Settings."
  else if provider = "azure" then "Azure OpenAI not fully configured. Please set API key, endpoint, and deployment in Settings."
  else "Provider not configured"

/-- Model of buildPrompt: optional context block followed by the kind-specific
instruction template; an unknown kind passes the text through (prompts[kind]
is undefined, so prompts[kind] || text yields text). -/
def buildPrompt (contextRaw : String) (kind : String) (text : String) : String :=
  let context := jsTrim contextRaw
  let ctxBlock := if context = "" then "" else "Background Context / Email Chain:\n" ++ context ++ "\n\n---\n\n"
  if kind = "revise" then ctxBlock ++ "Revise the following email for clarity, conciseness, and a friendly but professional tone. Keep the original meaning. Return only the improved email text.\n\nEmail:\n" ++ text
  else if kind = "formal" then ctxBlock ++ "Rewrite the following email in a formal, professional business tone. Use proper formal language and maintain high professionalism.\n\nEmail:\n" ++ text
  else if kind = "casual" then ctxBlock ++ "Rewrite the following email in a casual, friendly tone while remaining professional. Be conversational and approachable.\n\nEmail:\n" ++ text
  else if kind = "shorten" then ctxBlock ++ "Make the following email more concise. Remove unnecessary words while keeping the key message and maintaining professionalism.\n\nEmail:\n" ++ text
  else if kind = "expand" then ctxBlock ++ "Expand the following email with more detail and context. Make it more comprehensive while maintaining clarity and professionalism.\n\nEmail:\n" ++ text
  else text

/-- The rate-limit window of send (RATE_LIMIT_MS). -/
def RATE_LIMIT_MS : Int := 1000

/-- Session-level state of the side panel around send: the rate-limit
timestamp, the text captured for diffing, and the UI pieces above. -/
structure SessState where
  lastRequestTime : Int
  originalText : String
  ui : UiState
deriving DecidableEq

/-- What a send call amounted to. -/
inductive SendOutcome where
| rateLimited
| emptyInput
| invalidConfig (message : String)
| started (prompt : String) (systemPrompt : String)
deriving DecidableEq

/-- Model of the send function up to posting the start message: the
rate-limit gate (which returns before updating the timestamp), the
unconditional timestamp update once the gate is passed, the empty-input
check, the provider-configuration check, and the transition into streaming
with the prompt built (started carries the constructed prompt and system
prompt; the network hand-off itself is the port). -/
def send (st : SessState) (now : Int) (kind provider _modelRaw inputRaw contextRaw systemPrompt : String)
    (cfg : Cfg) : SendOutcome × SessState :=
  if now - st.lastRequestTime < RATE_LIMIT_MS then
    (SendOutcome.rateLimited, st)
  else
    let st1 := { st with lastRequestTime := now }
    let text := jsTrim inputRaw
    if text = "" then (SendOutcome.emptyInput, st1)
    else if validateProvider provider cfg = false then
      (SendOutcome.invalidConfig (getValidationError provider), st1)
    else
      let ui2 : UiState :=
        { st1.ui with isStreaming := true, output := "", raw := "", portOpen := true,
                      status := "Preparing request..." }
      let st2 := { st1 with originalText := text, ui := ui2 }
      (SendOutcome.started (buildPrompt contextRaw kind text) systemPrompt, st2)

/-!  Concrete inputs used by witnesses and counterexamples. -/

def evtC1 : Json :=
  Json.obj [("choices", Json.arr [Json.obj [("delta", Json.obj [("content", Json.str "hi")])]])]

def parseC1 : String → Option Json :=
  fun s => if s = "e" then some evtC1 else none

def cfgC1 : Cfg :=
  ⟨"sk", "", "", "", "", "", "", ""⟩

def respC1 : HttpResp :=
  { ok := true, status := 200, bodyText := "", stream := some ["data: e\nda", "ta: e\n"] }

def evtC2 : Json :=
  Json.obj [("choices", Json.arr [Json.obj [("delta", Json.obj [("content", Json.str "ok")])]])]

def parseC2 : String → Option Json :=
  fun s => if s = "good" then some evtC2 else none

def st0C2 : SseState :=
  { buffer := "", full := "", deltas := [] }

def gEvtTwoParts : Json :=
  Json.obj [("candidates", Json.arr [Json.obj [("content", Json.obj [("parts",
    Json.arr [Json.obj [("text", Json.str "a")], Json.obj [("text", Json.str "b")]])])]])]

def gEvtOnePart : Json :=
  Json.obj [("candidates", Json.arr [Json.obj [("content", Json.obj [("parts",
    Json.arr [Json.obj [("text", Json.str "hello")]])])]])]

def cfgC4 : Cfg :=
  ⟨"", "", "", "", "k", "http://foo.com", "dep", ""⟩

/-- Formalization of C5's own wording, for the refinement comparison: use the
nested error.message field whenever it is present, else the top-level message
field whenever it is present, else the truncated raw body. -/
def httpErrorDetailClaimed (parsed : Option Json) (errText : String) : String :=
  match parsed with
  | none => truncate errText 200
  | some j =>
    match jsField (jsField (some j) "error") "message" with
    | some v => jsToStr v
    | none =>
      match jsGet j "message" with
      | some v => jsToStr v
      | none => truncate errText 200

/-- The claim's message format built over its own detail extraction. -/
def httpErrorMessageClaimed (provider : String) (status : Nat) (parsed : Option Json) (errText : String) : String :=
  provider ++ " API error " ++ toString status ++ ": " ++ httpErrorDetailClaimed parsed errText

/-- Amended wording of C5: a message field is used only when it is present
and truthy (non-empty). -/
def httpErrorDetailAmended (parsed : Option Json) (errText : String) : String :=
  match parsed with
  | none => truncate errText 200
  | some j =>
    if jsTruthyOpt (jsField (jsField (some j) "error") "message") then
      jsToStr ((jsField (jsField (some j) "error") "message").getD Json.null)
    else if jsTruthyOpt (jsGet j "message") then
      jsToStr ((jsGet j "message").getD Json.null)
    else truncate errText 200

def jC5empty : Json :=
  Json.obj [("error", Json.obj [("message", Json.str "")])]

def rawC5empty : String :=
  "\x7b\x22error\x22:\x7b\x22message\x22:\x22\x22\x7d\x7d"

def jC5rate : Json :=
  Json.obj [("error", Json.obj [("message", Json.str "rate limited")])]

def rawC5rate : String :=
  "\x7b\x22error\x22:\x7b\x22message\x22:\x22rate limited\x22\x7d\x7d"

def histC6 : HistState :=
  ⟨["a1", "a2", "a3", "a4", "a5", "a6", "a7", "a8", "a9", "a10"], 9⟩

def ui0 : UiState :=
  ⟨"", "", false, ⟨[], -1⟩, false, ""⟩

def sess0 : SessState :=
  ⟨0, "", ui0⟩

def cfgOpenai : Cfg :=
  ⟨"sk-test", "", "", "", "", "", "", ""⟩

/-- State after a first send at t=2000 (allowed: it sets the timestamp). -/
def stC8a : SessState :=
  (send sess0 2000 "revise" "openai" "" "Hello" "" "sys" cfgOpenai).2

/-- State after a second send at t=2500 (rejected by the rate limit, which
leaves the timestamp at 2000). -/
def stC8b : SessState :=
  (send stC8a 2500 "revise" "openai" "" "Hello" "" "sys" cfgOpenai).2

def cfgC10 : Cfg :=
  ⟨"", "", "", "dk", "", "", "", ""⟩

/-!  Helper lemmas shared by the claim theorems. -/

/-- Invariant of the read loop: the accumulated text is the concatenation of
the delivered fragments, and no delivered fragment is empty. -/
def SInv (st : SseState) : Prop :=
  st.full = String.join st.deltas ∧ st.deltas.all (fun d => d != "") = true

theorem string_join_append_one (xs : List String) (t : String) :
    String.join (xs ++ [t]) = String.join xs ++ t := by
  simp [String.join, List.foldl_append]

theorem processLine_sinv (provider : String) (parse : String → Option Json)
    (st : SseState) (line : String) (h : SInv st) :
    SInv (processLine provider parse st line) := by
  dsimp only [processLine]
  split
  · exact h
  · split
    · split
      · exact h
      · split
        · exact h
        · split
          · exact h
          · next t ht =>
            obtain ⟨h1, h2⟩ := h
            refine ⟨?_, ?_⟩
            · simp only [string_join_append_one, h1]
            · simp [List.all_append, h2, ht]
    · exact h

theorem foldl_processLine_sinv (provider : String) (parse : String → Option Json)
    (lines : List String) :
    ∀ st : SseState, SInv st → SInv (List.foldl (processLine provider parse) st lines) := by
  induction lines with
  | nil => intro st h; exact h
  | cons l ls ih =>
    intro st h
    exact ih _ (processLine_sinv provider parse st l h)

theorem feedChunk_sinv (provider : String) (parse : String → Option Json)
    (st : SseState) (chunk : String) (h : SInv st) :
    SInv (feedChunk provider parse st chunk) := by
  unfold feedChunk
  exact foldl_processLine_sinv provider parse _ _ ⟨h.1, h.2⟩

theorem foldl_feedChunk_sinv (provider : String) (parse : String → Option Json)
    (chunks : List String) :
    ∀ st : SseState, SInv st → SInv (List.foldl (feedChunk provider parse) st chunks) := by
  induction chunks with
  | nil => intro st h; exact h
  | cons c cs ih =>
    intro st h
    exact ih _ (feedChunk_sinv provider parse st c h)

theorem runStream_sinv (provider : String) (parse : String → Option Json)
    (chunks : List String) : SInv (runStream provider parse chunks) := by
  unfold runStream
  exact foldl_feedChunk_sinv provider parse chunks _ ⟨rfl, rfl⟩

theorem processLine_id_of_parse_none (provider : String) (parse : String → Option Json)
    (st : SseState) (line : String)
    (h : parse (jsTrim (jsDrop (jsTrim line) 5)) = none) :
    processLine provider parse st line = st := by
  dsimp only [processLine]
  split
  · rfl
  · split
    · split
      · rfl
      · rw [h]
    · rfl

/-!  C1. -/

/-- C1: for every provider and every streamed HTTP response, the string
streamAI returns is the concatenation, in invocation order, of exactly the
fragments passed to onDelta, and every fragment passed to onDelta is
non-empty. -/
theorem c1_streamAI_returns_delta_concat
    (provider model prompt systemPrompt : String) (cfg : Cfg)
    (parse : String → Option Json) (resp : HttpResp) (chunks : List String)
    (t : String) (ds : List String)
    (hs : resp.stream = some chunks)
    (h : streamAI provider model prompt systemPrompt cfg parse resp = Except.ok (t, ds)) :
    t = String.join ds ∧ ds.all (fun d => d != "") = true := by
  unfold streamAI at h
  cases hp : streamAI_prepare provider model prompt systemPrompt cfg with
  | error e =>
    rw [hp] at h
    exact absurd h (by simp)
  | ok r =>
    rw [hp] at h
    by_cases hok : resp.ok = false
    · rw [if_pos hok] at h
      exact absurd h (by simp)
    · rw [if_neg hok, hs] at h
      have hinv := runStream_sinv provider parse chunks
      simp only [Except.ok.injEq, Prod.mk.injEq] at h
      obtain ⟨h1, h2⟩ := h
      constructor
      · rw [← h1, ← h2]
        exact hinv.1
      · rw [← h2]
        exact hinv.2

/-- Witness for C1 on a concrete two-chunk stream whose second record spans
the chunk boundary. -/
theorem c1_streamAI_returns_delta_concat_witness :
    "hihi" = String.join ["hi", "hi"] ∧ (["hi", "hi"]).all (fun d => d != "") = true :=
  c1_streamAI_returns_delta_concat "openai" "" "p" "s" cfgC1 parseC1 respC1
    ["data: e\nda", "ta: e\n"] "hihi" ["hi", "hi"] rfl rfl

/-!  C2. -/

/-- C2: while processing a streaming body, no single record aborts the stream
or produces a spurious delta: a blank line, a line without the data: tag, the
literal [DONE] sentinel, and a data: record whose payload does not parse as
JSON each leave the loop state unchanged, and a line with an unparsable
payload is transparent to the rest of the stream (records after it are
processed exactly as if it were absent). -/
theorem c2_malformed_records_are_skipped (provider : String) (parse : String → Option Json) :
    (∀ st line, jsTrim line = "" → processLine provider parse st line = st) ∧
    (∀ st line, jsStarts (jsTrim line) "data:" = false → processLine provider parse st line = st) ∧
    (∀ st : SseState, processLine provider parse st "data: [DONE]" = st) ∧
    (∀ st line, parse (jsTrim (jsDrop (jsTrim line) 5)) = none →
      processLine provider parse st line = st) ∧
    (∀ st ls1 ls2 line, parse (jsTrim (jsDrop (jsTrim line) 5)) = none →
      List.foldl (processLine provider parse) st (ls1 ++ line :: ls2) =
        List.foldl (processLine provider parse) st (ls1 ++ ls2)) := by
  refine ⟨?_, ?_, ?_, ?_, ?_⟩
  · intro st line h
    dsimp only [processLine]
    rw [if_pos h]
  · intro st line h
    dsimp only [processLine]
    split
    · rfl
    · simp [h]
  · intro st
    rfl
  · intro st line h
    exact processLine_id_of_parse_none provider parse st line h
  · intro st ls1 ls2 line h
    rw [List.foldl_append, List.foldl_cons,
        processLine_id_of_parse_none provider parse _ line h, ← List.foldl_append]

/-- Witness for C2: a malformed record is skipped and a valid record after it
still produces its delta. -/
theorem c2_malformed_records_are_skipped_witness :
    processLine "openai" parseC2 st0C2 "data: junk" = st0C2 ∧
    List.foldl (processLine "openai" parseC2) st0C2 ["data: junk", "data: good"] =
      List.foldl (processLine "openai" parseC2) st0C2 ["data: good"] ∧
    (List.foldl (processLine "openai" parseC2) st0C2 ["data: junk", "data: good"]).deltas = ["ok"] :=
  ⟨(c2_malformed_records_are_skipped "openai" parseC2).2.2.2.1 st0C2 "data: junk" rfl,
   (c2_malformed_records_are_skipped "openai" parseC2).2.2.2.2 st0C2 [] ["data: good"] "data: junk" rfl,
   rfl⟩

/-!  C3. -/

/-- Counterexample for C3: on an event whose parts array carries two
non-empty texts, the streaming extraction (join with the empty string) and
the non-streaming normalization (join with a newline) disagree. -/
theorem c3_google_extract_counterexample :
    googleExtractStream gEvtTwoParts ≠ googleExtractCall gEvtTwoParts ∧
    googleExtractStream gEvtTwoParts = "ab" ∧
    googleExtractCall gEvtTwoParts = "a\nb" := by
  refine ⟨?_, rfl, rfl⟩
  decide

/-- C3 (amended): the two google extraction functions agree on every event
with at most one truthy part text — in particular on every single-part event
— while in general streamAI joins the part texts with the empty string and
callAI joins them with a newline. -/
theorem c3_google_extract_agree_of_single (evt : Json)
    (h : (truthyTexts (googleParts evt)).length ≤ 1) :
    googleExtractStream evt = googleExtractCall evt := by
  unfold googleExtractStream googleExtractCall
  rcases hx : truthyTexts (googleParts evt) with _ | ⟨a, _ | ⟨b, rest⟩⟩
  · rfl
  · rfl
  · rw [hx] at h
    simp at h

/-- Witness for the amended C3 on a concrete single-part event. -/
theorem c3_google_extract_agree_of_single_witness :
    (truthyTexts (googleParts gEvtOnePart)).length ≤ 1 ∧
    googleExtractStream gEvtOnePart = googleExtractCall gEvtOnePart :=
  ⟨by decide, c3_google_extract_agree_of_single gEvtOnePart (by decide)⟩

/-!  C4. -/

theorem azure_callAI_prepare_error (model prompt systemPrompt : String) (cfg : Cfg)
    (h : jsTrim cfg.azure_endpoint = "" ∨ cfg.azure_api_key = "" ∨ jsTrim cfg.azure_deployment = "" ∨
      jsStarts (jsTrim cfg.azure_endpoint) "https://" = false) :
    ∃ e, callAI_prepare "azure" model prompt systemPrompt cfg = Except.error e := by
  by_cases hc : jsTrim cfg.azure_endpoint = "" ∨ cfg.azure_api_key = "" ∨ jsTrim cfg.azure_deployment = ""
  · refine ⟨"Azure configuration is incomplete. Set endpoint, deployment, and API key in Settings.", ?_⟩
    dsimp only [callAI_prepare]
    rw [if_pos rfl, if_pos hc]
  · have hs : jsStarts (jsTrim cfg.azure_endpoint) "https://" = false := by tauto
    refine ⟨"Azure endpoint must use HTTPS. Please update your endpoint URL.", ?_⟩
    dsimp only [callAI_prepare]
    rw [if_pos rfl, if_neg hc, if_pos hs]

theorem azure_streamAI_prepare_error (model prompt systemPrompt : String) (cfg : Cfg)
    (h : jsTrim cfg.azure_endpoint = "" ∨ cfg.azure_api_key = "" ∨ jsTrim cfg.azure_deployment = "" ∨
      jsStarts (jsTrim cfg.azure_endpoint) "https://" = false) :
    ∃ e, streamAI_prepare "azure" model prompt systemPrompt cfg = Except.error e := by
  by_cases hc : jsTrim cfg.azure_endpoint = "" ∨ cfg.azure_api_key = "" ∨ jsTrim cfg.azure_deployment = ""
  · refine ⟨"Azure configuration is incomplete.", ?_⟩
    dsimp only [streamAI_prepare]
    rw [if_pos rfl, if_pos hc]
  · have hs : jsStarts (jsTrim cfg.azure_endpoint) "https://" = false := by tauto
    refine ⟨"Azure endpoint must use HTTPS.", ?_⟩
    dsimp only [streamAI_prepare]
    rw [if_pos rfl, if_neg hc, if_pos hs]

/-- C4: for provider azure, an empty endpoint, API key or deployment, or an
endpoint (as the adapter reads it, i.e. trimmed) not starting with https://,
makes both callAI and streamAI throw a configuration error independent of
any HTTP response — i.e. before any network call. -/
theorem c4_azure_invalid_config_fails_before_fetch (model prompt systemPrompt : String) (cfg : Cfg)
    (h : jsTrim cfg.azure_endpoint = "" ∨ cfg.azure_api_key = "" ∨ jsTrim cfg.azure_deployment = "" ∨
      jsStarts (jsTrim cfg.azure_endpoint) "https://" = false) :
    (∃ e, ∀ parse resp data, callAI "azure" model prompt systemPrompt cfg parse resp data = Except.error e) ∧
    (∃ e, ∀ parse resp, streamAI "azure" model prompt systemPrompt cfg parse resp = Except.error e) := by
  constructor
  · obtain ⟨e, he⟩ := azure_callAI_prepare_error model prompt systemPrompt cfg h
    refine ⟨e, fun parse resp data => ?_⟩
    unfold callAI
    rw [he]
  · obtain ⟨e, he⟩ := azure_streamAI_prepare_error model prompt systemPrompt cfg h
    refine ⟨e, fun parse resp => ?_⟩
    unfold streamAI
    rw [he]

/-- Witness for C4 at the endpoint http://foo.com of the spec's example. -/
theorem c4_azure_invalid_config_fails_before_fetch_witness :
    (∃ e, ∀ parse resp data, callAI "azure" "" "p" "s" cfgC4 parse resp data = Except.error e) ∧
    (∃ e, ∀ parse resp, streamAI "azure" "" "p" "s" cfgC4 parse resp = Except.error e) :=
  c4_azure_invalid_config_fails_before_fetch "" "p" "s" cfgC4
    (Or.inr (Or.inr (Or.inr (by decide))))

/-!  C5. -/

theorem httpErrorDetail_eq_amended (parsed : Option Json) (errText : String) :
    httpErrorDetail parsed errText = httpErrorDetailAmended parsed errText := by
  cases parsed with
  | none => rfl
  | some j =>
    unfold httpErrorDetail httpErrorDetailAmended
    cases hem : jsField (jsField (some j) "error") "message" with
    | none =>
      simp only [hem, jsTruthyOpt]
      unfold httpErrorDetailTop
      cases htop : jsGet j "message" with
      | none => simp [htop, jsTruthyOpt]
      | some v =>
        by_cases hv : jsTruthy v
        · simp [htop, jsTruthyOpt, hv]
        · simp [htop, jsTruthyOpt, hv]
    | some v =>
      by_cases hv : jsTruthy v
      · simp [hem, jsTruthyOpt, hv]
      · simp only [hem, jsTruthyOpt, hv, if_false, Bool.false_eq_true, if_neg]
        unfold httpErrorDetailTop
        cases htop : jsGet j "message" with
        | none => simp [htop, jsTruthyOpt]
        | some w =>
          by_cases hw : jsTruthy w
          · simp [htop, jsTruthyOpt, hw]
          · simp [htop, jsTruthyOpt, hw]

/-- Counterexample for C5: on a 429 response whose body is valid JSON with a
present but empty error.message field, the code falls through to the
truncated raw body, while the claim's reading ("the field if present")
prescribes the empty detail. -/
theorem c5_http_error_message_counterexample :
    httpErrorMessage "openai" 429 (some jC5empty) rawC5empty ≠
      httpErrorMessageClaimed "openai" 429 (some jC5empty) rawC5empty ∧
    httpErrorMessageClaimed "openai" 429 (some jC5empty) rawC5empty = "openai API error 429: " ∧
    httpErrorMessage "openai" 429 (some jC5empty) rawC5empty = "openai API error 429: " ++ rawC5empty := by
  refine ⟨by decide, rfl, rfl⟩

/-- C5 (amended): the thrown message is
provider ++ " API error " ++ status ++ ": " ++ detail, where the detail is
the nested error.message field if present and truthy, else the top-level
message field if present and truthy, else the raw body truncated to 200
units; in particular the spec's 429 rate-limited example yields exactly
"openai API error 429: rate limited". -/
theorem c5_http_error_message_format :
    (∀ provider status parsed errText,
      httpErrorMessage provider status parsed errText =
        provider ++ " API error " ++ toString status ++ ": " ++ httpErrorDetailAmended parsed errText) ∧
    httpErrorMessage "openai" 429 (some jC5rate) rawC5rate = "openai API error 429: rate limited" := by
  constructor
  · intro provider status parsed errText
    unfold httpErrorMessage
    rw [httpErrorDetail_eq_amended]
  · rfl

/-!  C6. -/

/-- C6: under the capacity invariant, a push keeps the length at most 10 and
navigation never changes the entries; a push onto a full history of 10 drops
the oldest entry and appends the new one; and after every push the cursor
points at the newest entry. -/
theorem c6_history_capacity_fifo (h : HistState) (t : String) (d : Int)
    (hle : h.items.length ≤ 10) :
    (addToHistory h t).items.length ≤ 10 ∧
    (navigateHistory h d).items = h.items ∧
    (h.items.length = 10 → (addToHistory h t).items = h.items.drop 1 ++ [t]) ∧
    (addToHistory h t).idx = ((addToHistory h t).items.length : Int) - 1 := by
  refine ⟨?_, ?_, ?_, ?_⟩
  · unfold addToHistory
    dsimp only
    split
    · simp
      omega
    · next hgt =>
      simp only [List.length_append, List.length_cons, List.length_nil] at hgt ⊢
      omega
  · unfold navigateHistory
    split
    · rfl
    · rfl
  · intro h10
    unfold addToHistory
    dsimp only
    rw [if_pos (by simp [h10])]
    rw [List.drop_append_eq_append_drop]
    simp [h10]
  · rfl

/-- Witness for C6 on a full ten-entry history. -/
theorem c6_history_capacity_fifo_witness :
    (addToHistory histC6 "a11").items.length ≤ 10 ∧
    (navigateHistory histC6 1).items = histC6.items ∧
    (histC6.items.length = 10 → (addToHistory histC6 "a11").items = histC6.items.drop 1 ++ ["a11"]) ∧
    (addToHistory histC6 "a11").idx = ((addToHistory histC6 "a11").items.length : Int) - 1 :=
  c6_history_capacity_fifo histC6 "a11" 1 (by decide)

/-!  C7. -/

/-- C7: the history (entries and cursor alike) changes only on the done
message: a delta message, an error message and a cancel leave it untouched
even when deltas were already accumulated, and only the done message records
the finished text. -/
theorem c7_history_mutated_only_on_success (s : UiState) (t u e : String) :
    (onPortMessage s (PortMsg.delta t)).hist = s.hist ∧
    (onPortMessage s (PortMsg.err e)).hist = s.hist ∧
    (cancelStream s).hist = s.hist ∧
    (onPortMessage s (PortMsg.done u)).hist = addToHistory s.hist (if u = "" then s.raw else u) :=
  ⟨rfl, rfl, rfl, rfl⟩

/-!  C8 and C9. -/

theorem send_sets_timestamp (st : SessState) (now : Int)
    (kind provider modelRaw inputRaw contextRaw systemPrompt : String) (cfg : Cfg)
    (hpass : ¬ (now - st.lastRequestTime < RATE_LIMIT_MS)) :
    ((send st now kind provider modelRaw inputRaw contextRaw systemPrompt cfg).2).lastRequestTime = now := by
  unfold send
  rw [if_neg hpass]
  dsimp only
  split
  · rfl
  · split
    · rfl
    · rfl

theorem send_rateLimited_of_gap (st : SessState) (now : Int)
    (kind provider modelRaw inputRaw contextRaw systemPrompt : String) (cfg : Cfg)
    (h : now - st.lastRequestTime < RATE_LIMIT_MS) :
    send st now kind provider modelRaw inputRaw contextRaw systemPrompt cfg =
      (SendOutcome.rateLimited, st) := by
  unfold send
  rw [if_pos h]

/-- Counterexample for C8: with the timestamp at 2000, a send at t=2500 is
rejected by the rate limit without updating the timestamp, so a further send
at t=3200 — only 700ms after the rejected one — is allowed.  The calls at
2500 and 3200 are two send calls less than 1000ms apart whose second call is
not rejected. -/
theorem c8_two_calls_counterexample :
    (send sess0 2000 "revise" "openai" "" "Hello" "" "sys" cfgOpenai).1 ≠ SendOutcome.rateLimited ∧
    (send stC8a 2500 "revise" "openai" "" "Hello" "" "sys" cfgOpenai).1 = SendOutcome.rateLimited ∧
    stC8b = stC8a ∧
    ((3200 : Int) - 2500 < 1000) ∧
    (send stC8b 3200 "revise" "openai" "" "Hello" "" "sys" cfgOpenai).1 ≠ SendOutcome.rateLimited := by
  refine ⟨by decide, by decide, by decide, by decide, by decide⟩

/-- C8 (amended): when the earlier of the two calls itself passed the
rate-limit gate (only such calls update the stored timestamp), any send call
less than 1000ms after it is rejected with the rate-limit outcome and leaves
the session state completely unchanged — no validation, no prompt
construction, no start. -/
theorem c8_rate_limit_window (st : SessState) (now now2 : Int)
    (kind provider modelRaw inputRaw contextRaw systemPrompt : String) (cfg : Cfg)
    (kind2 provider2 model2 input2 context2 system2 : String) (cfg2 : Cfg)
    (hpass : ¬ (now - st.lastRequestTime < RATE_LIMIT_MS))
    (hgap : now2 - now < 1000) :
    send (send st now kind provider modelRaw inputRaw contextRaw systemPrompt cfg).2 now2
        kind2 provider2 model2 input2 context2 system2 cfg2 =
      (SendOutcome.rateLimited, (send st now kind provider modelRaw inputRaw contextRaw systemPrompt cfg).2) := by
  have hl := send_sets_timestamp st now kind provider modelRaw inputRaw contextRaw systemPrompt cfg hpass
  set st1 := (send st now kind provider modelRaw inputRaw contextRaw systemPrompt cfg).2 with hst1
  have hcond : now2 - st1.lastRequestTime < RATE_LIMIT_MS := by
    rw [hl]
    simpa [RATE_LIMIT_MS] using hgap
  exact send_rateLimited_of_gap st1 now2 kind2 provider2 model2 input2 context2 system2 cfg2 hcond

/-- Witness for the amended C8: first call at t=2000 allowed, second at
t=2500 rejected with the state unchanged. -/
theorem c8_rate_limit_window_witness :
    send (send sess0 2000 "revise" "openai" "" "Hello" "" "sys" cfgOpenai).2 2500
        "revise" "openai" "" "Hello" "" "sys" cfgOpenai =
      (SendOutcome.rateLimited, (send sess0 2000 "revise" "openai" "" "Hello" "" "sys" cfgOpenai).2) :=
  c8_rate_limit_window sess0 2000 2500 "revise" "openai" "" "Hello" "" "sys" cfgOpenai
    "revise" "openai" "" "Hello" "" "sys" cfgOpenai (by decide) (by decide)

/-- C9: a send call that passes the rate-limit gate and is then rejected for
empty input or unconfigured provider credentials still sets the rate-limit
timestamp to the call time, so a further send call within 1000ms of the
rejected one is itself rejected with the rate-limit outcome. -/
theorem c9_rejected_call_still_consumes_window (st : SessState) (now now2 : Int)
    (kind provider modelRaw inputRaw contextRaw systemPrompt : String) (cfg : Cfg)
    (kind2 provider2 model2 input2 context2 system2 : String) (cfg2 : Cfg)
    (hpass : ¬ (now - st.lastRequestTime < RATE_LIMIT_MS))
    (hrej : jsTrim inputRaw = "" ∨ validateProvider provider cfg = false)
    (hgap : now2 - now < 1000) :
    ((send st now kind provider modelRaw inputRaw contextRaw systemPrompt cfg).1 = SendOutcome.emptyInput ∨
     (send st now kind provider modelRaw inputRaw contextRaw systemPrompt cfg).1 =
       SendOutcome.invalidConfig (getValidationError provider)) ∧
    ((send st now kind provider modelRaw inputRaw contextRaw systemPrompt cfg).2).lastRequestTime = now ∧
    (send (send st now kind provider modelRaw inputRaw contextRaw systemPrompt cfg).2 now2
        kind2 provider2 model2 input2 context2 system2 cfg2).1 = SendOutcome.rateLimited := by
  have hl := send_sets_timestamp st now kind provider modelRaw inputRaw contextRaw systemPrompt cfg hpass
  refine ⟨?_, hl, ?_⟩
  · unfold send
    rw [if_neg hpass]
    dsimp only
    by_cases hin : jsTrim inputRaw = ""
    · left
      rw [if_pos hin]
    · right
      have hval : validateProvider provider cfg = false := by tauto
      rw [if_neg hin, if_pos hval]
  · set st1 := (send st now kind provider modelRaw inputRaw contextRaw systemPrompt cfg).2 with hst1
    have hcond : now2 - st1.lastRequestTime < RATE_LIMIT_MS := by
      rw [hl]
      simpa [RATE_LIMIT_MS] using hgap
    rw [send_rateLimited_of_gap st1 now2 kind2 provider2 model2 input2 context2 system2 cfg2 hcond]

/-- Witness for C9: a config-rejected call at t=2000 (no provider is
configured in the empty credential mapping) still blocks a call at t=2500. -/
theorem c9_rejected_call_still_consumes_window_witness :
    ((send sess0 2000 "revise" "openai" "" "Hello" "" "sys" cfgC10).1 = SendOutcome.emptyInput ∨
     (send sess0 2000 "revise" "openai" "" "Hello" "" "sys" cfgC10).1 =
       SendOutcome.invalidConfig (getValidationError "openai")) ∧
    ((send sess0 2000 "revise" "openai" "" "Hello" "" "sys" cfgC10).2).lastRequestTime = 2000 ∧
    (send (send sess0 2000 "revise" "openai" "" "Hello" "" "sys" cfgC10).2 2500
        "revise" "openai" "" "Hello" "" "sys" cfgC10).1 = SendOutcome.rateLimited :=
  c9_rejected_call_still_consumes_window sess0 2000 2500 "revise" "openai" "" "Hello" "" "sys" cfgC10
    "revise" "openai" "" "Hello" "" "sys" cfgC10 (by decide) (Or.inr (by decide)) (by decide)

/-!  C10. -/

/-- C10: every provider string outside the four recognized ones falls into
the deepseek branch of both entry points: an empty DeepSeek key throws the
configuration error, and otherwise the request goes to the DeepSeek
chat-completions URL with Bearer authentication and the model defaulting to
deepseek-chat. -/
theorem c10_unknown_provider_uses_deepseek (provider model prompt systemPrompt : String) (cfg : Cfg)
    (h1 : provider ≠ "openai") (h2 : provider ≠ "anthropic") (h3 : provider ≠ "google")
    (h4 : provider ≠ "azure") :
    (cfg.deepseek_key = "" →
      callAI_prepare provider model prompt systemPrompt cfg =
        Except.error "DeepSeek API key not set. Add it in Settings." ∧
      streamAI_prepare provider model prompt systemPrompt cfg =
        Except.error "DeepSeek API key not set.") ∧
    (cfg.deepseek_key ≠ "" →
      callAI_prepare provider model prompt systemPrompt cfg = Except.ok
        { url := "https://api.deepseek.com/chat/completions"
          headers := [("Content-Type", "application/json"), ("Authorization", "Bearer " ++ cfg.deepseek_key)]
          body := ReqBody.chat (some (if model = "" then "deepseek-chat" else model))
            (if systemPrompt = "" then "You are a helpful assistant. Return concise results." else systemPrompt)
            prompt (some false) } ∧
      streamAI_prepare provider model prompt systemPrompt cfg = Except.ok
        { url := "https://api.deepseek.com/chat/completions"
          headers := [("Content-Type", "application/json"), ("Authorization", "Bearer " ++ cfg.deepseek_key)]
          body := ReqBody.chat (some (if model = "" then "deepseek-chat" else model))
            (if systemPrompt = "" then "You are a helpful assistant. Return concise results." else systemPrompt)
            prompt (some true) }) := by
  constructor
  · intro hk
    constructor
    · dsimp only [callAI_prepare]
      rw [if_neg h4, if_neg h1, if_neg h2, if_neg h3, if_pos hk]
    · dsimp only [streamAI_prepare]
      rw [if_neg h4, if_neg h1, if_neg h2, if_neg h3, if_pos hk]
  · intro hk
    constructor
    · dsimp only [callAI_prepare]
      rw [if_neg h4, if_neg h1, if_neg h2, if_neg h3, if_neg hk]
    · dsimp only [streamAI_prepare]
      rw [if_neg h4, if_neg h1, if_neg h2, if_neg h3, if_neg hk]

/-- Witness for C10 with the unrecognized provider string mistral. -/
theorem c10_unknown_provider_uses_deepseek_witness :
    callAI_prepare "mistral" "" "p" "s" cfgC10 = Except.ok
      { url := "https://api.deepseek.com/chat/completions"
        headers := [("Content-Type", "application/json"), ("Authorization", "Bearer dk")]
        body := ReqBody.chat (some "deepseek-chat") "s" "p" (some false) } ∧
    streamAI_prepare "mistral" "" "p" "s" cfgC10 = Except.ok
      { url := "https://api.deepseek.com/chat/completions"
        headers := [("Content-Type", "application/json"), ("Authorization", "Bearer dk")]
        body := ReqBody.chat (some "deepseek-chat") "s" "p" (some true) } :=
  (c10_unknown_provider_uses_deepseek "mistral" "" "p" "s" cfgC10
    (by decide) (by decide) (by decide) (by decide)).2 (by decide)

end EmailAssistant
